import Mathlib

/-!
Shallow embedding of the session connection lifecycle manager of the
interactive-stream-avatar repository.

The embedded code:
- the heartbeat variant of the StartStop controller (src/unnamed/part_005):
  checkAlive, safeRestart, grab, stop, clearHeartbeat, and the track
  ended/mute/unmute monitor handlers attached inside grab;
- the catch block of startSession in
  src/src/components/controls/start-stop.tsx;
- the keepalive API route handler in src/src/app/api/keepalive/route.ts.

Modelling conventions: the jotai atoms and mutable refs of the component are
collected in a state record threaded through the handlers; a plain read of an
atom inside a handler denotes its value at handler entry, and a setter call
updates the record (a functional setter such as setConsecutiveFailures
applies its function to the current record value).  Outcomes of remote calls
(fetches, SDK calls) are supplied through environment records.  Timer
activity and the order of side effects are recorded as an event trace so
that cancellation and ordering facts are statable.  Atom initial values come
from src/src/lib/atoms.ts (consecutiveFailures 0, connectionHealth ok).
-/

namespace StreamAvatar

/-- Prefix match on character lists, used to embed the JavaScript
String.includes test. -/
def matchHere : List Char → List Char → Bool
  | _, [] => true
  | [], _ :: _ => false
  | h :: hs, p :: ps => h == p && matchHere hs ps

/-- Substring occurrence on character lists. -/
def hasSub : List Char → List Char → Bool
  | [], p => matchHere [] p
  | h :: hs, p => matchHere (h :: hs) p || hasSub hs p

/-- Embedding of the JavaScript hay.includes(pat) string test. -/
def strIncludes (hay pat : String) : Bool := hasSub hay.data pat.data

/-- Embedding of the JavaScript s.toLowerCase(). -/
def lowerStr (s : String) : String := s.map Char.toLower

/-- The connectionHealthAtom values: "ok" or "degraded" or "offline". -/
inductive Health
  | ok
  | degraded
  | offline
deriving DecidableEq, Repr

/-- Side effects recorded while a handler runs, in execution order. -/
inductive Ev
  | clearHeartbeatEv
  | remoteStopCall
  | tokenFetchCall
  | keepaliveCall
  | createStartCall
  | waitMs (n : Nat)
deriving DecidableEq, Repr

/-- The component state of the heartbeat StartStop variant
(src/unnamed/part_005): its jotai atoms together with the mutable refs
(isStartingRef, heartbeatTimerRef, backoffRef) and the externally observable
timer and subscription resources created by grab.  The heartbeatTimer,
muteGraceTimer and trackSubscribed booleans record whether the heartbeat
interval, a pending mute grace timeout and the track event handlers are
currently armed. -/
structure AppState where
  avatarId : Option String
  isStarting : Bool
  heartbeatTimer : Bool
  backoff : Nat
  consecutiveFailures : Nat
  health : Health
  lastError : Option String
  lastHeartbeatAt : Option Nat
  sessionData : Option String
  stream : Bool
  avatar : Bool
  mediaStreamActive : Bool
  muteGraceTimer : Bool
  trackSubscribed : Bool
  debug : Option String
deriving DecidableEq, Repr

/-- External observations made by one checkAlive tick
(src/unnamed/part_005 lines 77-121): whether the SDK media stream reports
active, whether the first and the retried keepalive fetch succeed, the error
message a failed keepalive carries, and the current clock value. -/
structure TickEnv where
  mediaActive : Bool
  firstOk : Bool
  secondOk : Bool
  errMsg : String
  now : Nat
deriving DecidableEq, Repr

/-- Outcome of the keepalive tick body before the catch handler runs. -/
inductive TickResult
  | success
  | failure (msg : String)
deriving DecidableEq, Repr

/-- The body of checkAlive (src/unnamed/part_005 lines 78-110): read the
media-active flag, require a session id, call the keepalive route once,
retry exactly once after a 300 ms wait when the first call fails, and
declare success only when the media stream is still active. -/
def checkAliveTick (sid : Option String) (env : TickEnv) : TickResult × List Ev :=
  match sid with
  | none => (.failure "no sessionId", [])
  | some _ =>
      if env.firstOk then
        ((if env.mediaActive then .success else .failure "mediaStream inactive"),
         [.keepaliveCall])
      else if env.secondOk then
        ((if env.mediaActive then .success else .failure "mediaStream inactive"),
         [.keepaliveCall, .waitMs 300, .keepaliveCall])
      else
        (.failure env.errMsg, [.keepaliveCall, .waitMs 300, .keepaliveCall])

/-- Result of one full checkAlive invocation: the updated state, whether the
catch handler reached the safeRestart call, and the recorded effects. -/
structure HeartbeatStep where
  state : AppState
  restartTriggered : Bool
  trace : List Ev
deriving DecidableEq, Repr

/-- Embedding of checkAlive (src/unnamed/part_005 lines 77-121).  A
successful tick stores the heartbeat time, resets the failure counter and
sets health ok; a failed tick increments the counter, stores the message as
lastError, sets health degraded at two or more consecutive failures, and at
four or more sets health offline and invokes safeRestart (recorded here as
the restartTriggered flag). -/
def checkAlive (s : AppState) (env : TickEnv) : HeartbeatStep :=
  match checkAliveTick s.sessionData env with
  | (.success, evs) =>
      ⟨{ s with lastHeartbeatAt := some env.now
              , consecutiveFailures := 0
              , health := .ok }, false, evs⟩
  | (.failure msg, evs) =>
      let s1 := { s with consecutiveFailures := s.consecutiveFailures + 1
                       , lastError := some msg }
      let fails := s.consecutiveFailures + 1
      let s2 := if 2 ≤ fails then { s1 with health := .degraded } else s1
      if 4 ≤ fails then (⟨{ s2 with health := .offline }, true, evs⟩ : HeartbeatStep)
      else ⟨s2, false, evs⟩

/-- Fold a sequence of heartbeat tick observations through checkAlive,
counting how many ticks reached the safeRestart call. -/
def runHeartbeats (s : AppState) : List TickEnv → AppState × Nat
  | [] => (s, 0)
  | e :: es =>
      let st := checkAlive s e
      let (s2, n) := runHeartbeats st.state es
      (s2, (if st.restartTriggered then 1 else 0) + n)

/-- Outcome of the remote stopAvatar call inside stop: none when it
resolves, otherwise the rejection message. -/
structure StopEnv where
  stopErr : Option String
deriving DecidableEq, Repr

/-- Embedding of stop (src/unnamed/part_005 lines 280-312).  Returns
without touching the session state when no avatar instance or no session id
exists; otherwise clears the media-active flag and the heartbeat interval,
performs the remote stop (its errors are swallowed, a message containing
"close" is reported as an already closed session), and finally clears the
stream and session fields.  stop never raises. -/
def stop (s : AppState) (env : StopEnv) : AppState × List Ev :=
  if s.avatar = false then
    ({ s with debug := some "Avatar not initialized" }, [])
  else
    match s.sessionData with
    | none => ({ s with debug := some "No active session to stop" }, [])
    | some _ =>
        let s1 := { s with mediaStreamActive := false, heartbeatTimer := false }
        let s2 :=
          match env.stopErr with
          | none => s1
          | some msg =>
              let m := if msg = "" then "Failed to stop avatar" else msg
              if strIncludes (lowerStr m) "close" then
                { s1 with debug := some "Session already closed" }
              else { s1 with debug := some m }
        ({ s2 with stream := false, sessionData := none },
         [.clearHeartbeatEv, .remoteStopCall])

/-- Result of one createStartAvatar attempt: the new session id, or the
message of the raised error. -/
inductive StartRes
  | okSid (sid : String)
  | failMsg (msg : String)
deriving DecidableEq, Repr

/-- Outcomes of the remote calls made by grab
(src/unnamed/part_005 lines 159-278): whether the token fetch to /api/grab
succeeds, its status text when it does not, and the results of the up to
three createStartAvatar attempts together with the optional fallback voice
looked up from the public avatar list. -/
structure GrabEnv where
  tokenOk : Bool
  tokenStatusText : String
  start1 : StartRes
  fallbackVoice : Option String
  startFb : StartRes
  start2 : StartRes
deriving DecidableEq, Repr

/-- The attemptStart chain of grab (src/unnamed/part_005 lines 221-244):
start without a voice; when that fails with a message containing
"voice is not supported", try the avatar default voice when available, then
once more without a voice; when nothing produced a session the original
error is rethrown. -/
def startChain (env : GrabEnv) : StartRes × List Ev :=
  match env.start1 with
  | .okSid sid => (.okSid sid, [.createStartCall])
  | .failMsg msg =>
      if strIncludes msg "voice is not supported" then
        match env.fallbackVoice with
        | some _ =>
            (match env.startFb with
             | .okSid sid => (.okSid sid, [.createStartCall, .createStartCall])
             | .failMsg _ =>
                 match env.start2 with
                 | .okSid sid =>
                     (.okSid sid, [.createStartCall, .createStartCall, .createStartCall])
                 | .failMsg _ =>
                     (.failMsg msg, [.createStartCall, .createStartCall, .createStartCall]))
        | none =>
            match env.start2 with
            | .okSid sid => (.okSid sid, [.createStartCall, .createStartCall])
            | .failMsg _ => (.failMsg msg, [.createStartCall, .createStartCall])
      else (.failMsg msg, [.createStartCall])

/-- Result of a grab invocation: the final state, the recorded effects, and
the exception escaping grab when one does. -/
structure GrabResult where
  state : AppState
  trace : List Ev
  thrown : Option String
deriving DecidableEq, Repr

/-- True when the avatarId atom holds a usable id; the empty string is
falsy in the JavaScript truthiness test of grab. -/
def avatarIdSet (s : AppState) : Bool :=
  match s.avatarId with
  | none => false
  | some a => a != ""

/-- Embedding of grab (src/unnamed/part_005 lines 159-278).  A second grab
while one is in flight is a logged no-op, as is a grab without an avatar id.
Otherwise grab best-effort stops a lingering previous instance and clears
the local session state, sets isStarting, fetches a token (a failed token
fetch throws out of grab at a point where no handler resets isStarting),
then inside try/catch/finally runs the start chain: on success it stores
the session, attaches the track monitor handlers, clears and rearms the
heartbeat interval and resets the backoff to 1000; on failure it logs and
clears the state; the finally clause resets isStarting. -/
def grab (s : AppState) (env : GrabEnv) : GrabResult :=
  if s.isStarting then
    ⟨{ s with debug := some "Already starting a session..." }, [], none⟩
  else if avatarIdSet s = false then
    ⟨{ s with debug := some "Please select an Avatar ID" }, [], none⟩
  else
    let ev0 : List Ev :=
      if s.avatar && s.sessionData.isSome then [.remoteStopCall] else []
    let s1 := { s with avatar := false, stream := false, sessionData := none,
                       mediaStreamActive := false }
    let s2 := { s1 with isStarting := true }
    let ev1 := ev0 ++ [Ev.tokenFetchCall]
    if env.tokenOk = false then
      ⟨s2, ev1, some ("Failed to fetch: " ++ env.tokenStatusText)⟩
    else
      let s3 := { s2 with avatar := true }
      match startChain env with
      | (.okSid sid, ev2) =>
          let s4 := { s3 with sessionData := some sid, stream := true,
                              mediaStreamActive := true, trackSubscribed := true,
                              heartbeatTimer := true, backoff := 1000 }
          ⟨{ s4 with isStarting := false }, ev1 ++ ev2 ++ [Ev.clearHeartbeatEv], none⟩
      | (.failMsg msg, ev2) =>
          let m := if msg = "" then "Failed to start avatar session" else msg
          let s4 := { s3 with debug := some m, avatar := false, stream := false,
                              sessionData := none, mediaStreamActive := false }
          ⟨{ s4 with isStarting := false }, ev1 ++ ev2, none⟩

/-- The state safeRestart works from after its setDebug("Reconnecting...")
and clearHeartbeat calls, before its best-effort stop. -/
def reconnState (s : AppState) : AppState :=
  { s with debug := some "Reconnecting...", heartbeatTimer := false }

/-- The state after the best-effort stop inside safeRestart. -/
def postStopState (s : AppState) (se : StopEnv) : AppState :=
  (stop (reconnState s) se).1

/-- The state safeRestart hands to grab: the post-stop state with the
backoff delay doubled and capped at 10000 (the update backoffRef.current =
min(backoffRef.current * 2, 10000) performed after the wait). -/
def reconnGrabState (s : AppState) (se : StopEnv) : AppState :=
  { postStopState s se with
      backoff := min ((postStopState s se).backoff * 2) 10000 }

/-- Embedding of safeRestart (src/unnamed/part_005 lines 123-133): skipped
when a start is in flight; otherwise logs and clears the heartbeat interval
(reconnState), best-effort stops (postStopState), waits the backoff delay
current at that point, doubles the stored delay capped at 10000
(reconnGrabState), and calls grab from that state. -/
def safeRestart (s : AppState) (se : StopEnv) (ge : GrabEnv) : GrabResult :=
  if s.isStarting then ⟨s, [], none⟩
  else
    ⟨(grab (reconnGrabState s se) ge).state,
     Ev.clearHeartbeatEv ::
       ((stop (reconnState s) se).2 ++
         (Ev.waitMs (postStopState s se).backoff ::
           (grab (reconnGrabState s se) ge).trace)),
     (grab (reconnGrabState s se) ge).thrown⟩

/-- A baseline state in which a session is active: the state grab leaves
behind after a successful start, with the atom initial values of
src/src/lib/atoms.ts for the health fields. -/
def session0 : AppState :=
  { avatarId := some "avatar-1", isStarting := false, heartbeatTimer := true,
    backoff := 1000, consecutiveFailures := 0, health := .ok,
    lastError := none, lastHeartbeatAt := none, sessionData := some "sess-1",
    stream := true, avatar := true, mediaStreamActive := true,
    muteGraceTimer := false, trackSubscribed := true, debug := none }

/-- The idle state before any session was started. -/
def idle0 : AppState :=
  { avatarId := some "avatar-1", isStarting := false, heartbeatTimer := false,
    backoff := 1000, consecutiveFailures := 0, health := .ok,
    lastError := none, lastHeartbeatAt := none, sessionData := none,
    stream := false, avatar := false, mediaStreamActive := false,
    muteGraceTimer := false, trackSubscribed := false, debug := none }

/-- A tick observation in which both keepalive calls fail with a generic
network message while media is active. -/
def envFail : TickEnv :=
  { mediaActive := true, firstOk := false, secondOk := false,
    errMsg := "network error", now := 0 }

/-- A tick observation in which the first keepalive call succeeds and media
is active. -/
def envOkTick : TickEnv :=
  { mediaActive := true, firstOk := true, secondOk := true,
    errMsg := "", now := 42 }

/-- Events observable on a media track once the handlers of grab
(src/unnamed/part_005 lines 250-262) are attached: the track ends, mutes,
unmutes, or a previously armed grace timeout with identifier t fires. -/
inductive TrackEv
  | ended
  | mute
  | unmute
  | fire (t : Nat)
deriving DecidableEq, Repr

/-- State of the attached track monitor closures: the armed grace timeouts
(identifier and delay), the timeout id held by the current onunmute closure,
a fresh-id counter, and the controller observables the handlers could have
touched (number of safeRestart invocations, the failure counter and the
health atom). -/
structure MonState where
  pending : List (Nat × Nat)
  lastArmed : Option Nat
  nextId : Nat
  restarts : Nat
  failures : Nat
  health : Health
deriving DecidableEq, Repr

/-- Embedding of the track handlers attached by grab
(src/unnamed/part_005 lines 252-258): onended calls safeRestart directly;
onmute arms a 2000 ms timeout whose expiry calls safeRestart and installs
an onunmute closure that clears exactly that timeout; a fire of a timeout
that was cleared is a no-op.  None of the handlers touches the failure
counter or the health atom. -/
def trackStep (m : MonState) : TrackEv → MonState
  | .ended => { m with restarts := m.restarts + 1 }
  | .mute =>
      { m with pending := (m.nextId, 2000) :: m.pending,
               lastArmed := some m.nextId, nextId := m.nextId + 1 }
  | .unmute =>
      match m.lastArmed with
      | none => m
      | some t => { m with pending := m.pending.filter (fun p => p.1 != t) }
  | .fire t =>
      if m.pending.any (fun p => p.1 == t) then
        { m with pending := m.pending.filter (fun p => p.1 != t),
                 restarts := m.restarts + 1 }
      else m

/-- Monitor state right after grab attached the handlers: no grace timer
armed, no restart invoked, failure counter and health as the controller
left them. -/
def monInit : MonState :=
  { pending := [], lastArmed := none, nextId := 0, restarts := 0,
    failures := 0, health := .ok }

/-- Reaction of the catch block of startSession
(src/src/components/controls/start-stop.tsx lines 447-477) to a start
failure with the given raised message: the effective message (empty
messages are replaced by a default), whether clearSession ran, the value
stored in lastError, and the delay of the setTimeout rescheduling
startSession when one is armed. -/
structure CatchResult where
  cleared : Bool
  lastError : Option String
  retryDelayMs : Option Nat
deriving DecidableEq, Repr

/-- Embedding of the catch block of startSession
(src/src/components/controls/start-stop.tsx lines 447-473): the session is
always cleared and the message recorded; a message containing
"invalid session state" arms a 2000 ms retry of startSession, one
containing "network" or "timeout" arms a 5000 ms retry, and any other
message arms no retry. -/
def startSessionCatch (msg : String) : CatchResult :=
  let m := if msg = "" then "Failed to start avatar session" else msg
  if strIncludes m "invalid session state" then ⟨true, some m, some 2000⟩
  else if strIncludes m "network" || strIncludes m "timeout" then
    ⟨true, some m, some 5000⟩
  else ⟨true, some m, none⟩

/-- JSON values as far as the keepalive route inspects them: strings,
numbers, booleans and null are enough to express the truthiness and
typeof checks of src/src/app/api/keepalive/route.ts. -/
inductive JVal
  | jstr (s : String)
  | jnum (n : Int)
  | jbool (b : Bool)
  | jnull
deriving DecidableEq, Repr

/-- JavaScript truthiness of an optional property value; a missing
property (undefined) is falsy. -/
def jsTruthy : Option JVal → Bool
  | none => false
  | some .jnull => false
  | some (.jstr s) => s != ""
  | some (.jnum n) => n != 0
  | some (.jbool b) => b

/-- The JavaScript a or-else b on optional property values: a when truthy,
otherwise b. -/
def jsOrV (a b : Option JVal) : Option JVal := if jsTruthy a then a else b

/-- The JavaScript a or-else b on strings where the empty string is falsy,
with absent strings encoded as the empty string. -/
def jsOrS (a b : String) : String := if a == "" then b else a

/-- Whether the extracted value passes the typeof sessionId equals string
test of the route. -/
def isJStr : Option JVal → Bool
  | some (.jstr _) => true
  | _ => false

/-- Property lookup in a parsed JSON object body. -/
def jLookup (fields : List (String × JVal)) (k : String) : Option JVal :=
  (fields.find? (fun p => p.1 == k)).map (fun p => p.2)

/-- The upstream gateway response as the route reads it: ok flag, status,
status text, and the message and error fields of its parsed JSON body,
absent fields encoded as the empty string. -/
structure Upstream where
  ok : Bool
  status : Nat
  statusText : String
  message : String
  errMsgField : String
deriving DecidableEq, Repr

/-- External outcomes of the route handler: a rejection message when the
upstream fetch throws, otherwise the upstream response. -/
structure RouteEnv where
  fetchErr : Option String
  resp : Upstream
deriving DecidableEq, Repr

/-- Observable result of the route: HTTP status, the error field of the
JSON response body when one is present, and whether the upstream gateway
was called. -/
structure RouteResult where
  status : Nat
  errorOut : Option String
  upstreamCalled : Bool
deriving DecidableEq, Repr

/-- Whether the HEYGEN_API_KEY environment value passes the truthiness
check of the route (present and non-empty). -/
def tokenSet : Option String → Bool
  | none => false
  | some t => t != ""

/-- Embedding of the POST handler of src/src/app/api/keepalive/route.ts:
missing api token gives 500; an unparsable body gives 400; the session
identifier is body.session_id or-else body.sessionId and must be a truthy
string, otherwise 400 — all without calling the gateway; then the upstream
is called: a thrown fetch gives 500 with the error message, a non-ok
upstream response is forwarded with its own status and its message or
error field (falling back to the status text), and an ok response gives
200.  The handler never throws: every path returns a response. -/
def keepalivePOST (apiToken : Option String)
    (body : Option (List (String × JVal))) (env : RouteEnv) : RouteResult :=
  if tokenSet apiToken = false then
    ⟨500, some "API token is not defined", false⟩
  else
    match body with
    | none => ⟨400, some "Invalid JSON body", false⟩
    | some fields =>
        let sid := jsOrV (jLookup fields "session_id") (jLookup fields "sessionId")
        if !jsTruthy sid || !isJStr sid then
          ⟨400, some "session_id is required", false⟩
        else
          match env.fetchErr with
          | some m => ⟨500, some (jsOrS m "keep_alive error"), true⟩
          | none =>
              if env.resp.ok then ⟨200, none, true⟩
              else
                let message :=
                  jsOrS (jsOrS env.resp.message env.resp.errMsgField)
                    env.resp.statusText
                ⟨env.resp.status, some (jsOrS message "keep_alive failed"), true⟩

/-- A grab environment in which the token fetch to /api/grab fails with an
Internal Server Error status text. -/
def genvTokenFail : GrabEnv :=
  { tokenOk := false, tokenStatusText := "Internal Server Error",
    start1 := .failMsg "", fallbackVoice := none,
    startFb := .failMsg "", start2 := .failMsg "" }

/-- A grab environment in which the token fetch succeeds and the first
createStartAvatar attempt succeeds with a fresh session id. -/
def genvOkStart : GrabEnv :=
  { tokenOk := true, tokenStatusText := "",
    start1 := .okSid "sess-2", fallbackVoice := none,
    startFb := .failMsg "", start2 := .failMsg "" }

/-- A grab environment in which the token fetch succeeds but the
createStartAvatar attempt fails with a non-voice-related message. -/
def genvStartFail : GrabEnv :=
  { tokenOk := true, tokenStatusText := "",
    start1 := .failMsg "boom", fallbackVoice := none,
    startFb := .failMsg "", start2 := .failMsg "" }

/-- A stop environment in which the remote stopAvatar call resolves. -/
def stopEnvOk : StopEnv := ⟨none⟩

/-- A tick observation in which both keepalive calls fail with an
unauthorized message, as the keepalive route forwards when the gateway
rejects the session credentials. -/
def envAuth : TickEnv :=
  { mediaActive := true, firstOk := false, secondOk := false,
    errMsg := "unauthorized: session token expired", now := 7 }

/-- An active session state in which a mute grace timeout is pending. -/
def sMute : AppState := { session0 with muteGraceTimer := true }

/-- A route environment in which the upstream gateway call succeeds. -/
def envUpOk : RouteEnv :=
  ⟨none, { ok := true, status := 200, statusText := "OK",
           message := "", errMsgField := "" }⟩

/-- A route environment in which the upstream gateway rejects the session
as unauthorized. -/
def envUpBad : RouteEnv :=
  ⟨none, { ok := false, status := 401, statusText := "Unauthorized",
           message := "unauthorized", errMsgField := "" }⟩

/-- Characterization of a failed checkAlive tick: the catch handler
increments the failure counter, records the message, sets degraded at two
or more and offline at four or more consecutive failures, and reaches
safeRestart exactly at four or more. -/
theorem checkAlive_failure_char (s : AppState) (e : TickEnv) (m : String)
    (evs : List Ev)
    (h : checkAliveTick s.sessionData e = (TickResult.failure m, evs)) :
    checkAlive s e =
      ⟨{ s with consecutiveFailures := s.consecutiveFailures + 1,
                lastError := some m,
                health :=
                  if 4 ≤ s.consecutiveFailures + 1 then Health.offline
                  else if 2 ≤ s.consecutiveFailures + 1 then Health.degraded
                  else s.health },
        decide (4 ≤ s.consecutiveFailures + 1), evs⟩ := by
  unfold checkAlive
  rw [h]
  by_cases h4 : 4 ≤ s.consecutiveFailures + 1
  · have h2 : 2 ≤ s.consecutiveFailures + 1 := by omega
    simp [h4, h2]
  · by_cases h2 : 2 ≤ s.consecutiveFailures + 1 <;> simp [h4, h2]

/-- Characterization of a successful checkAlive tick: the heartbeat time is
recorded, the failure counter resets to zero and health becomes ok. -/
theorem checkAlive_success_char (s : AppState) (e : TickEnv) (evs : List Ev)
    (h : checkAliveTick s.sessionData e = (TickResult.success, evs)) :
    checkAlive s e =
      ⟨{ s with lastHeartbeatAt := some e.now, consecutiveFailures := 0,
                health := Health.ok }, false, evs⟩ := by
  unfold checkAlive
  rw [h]

/-- stop leaves the backoff delay, the in-flight guard, the avatar id, the
failure counter, the health atom, the last error and the monitor resources
untouched on every path. -/
theorem stop_fields (s : AppState) (e : StopEnv) :
    (stop s e).1.backoff = s.backoff ∧
    (stop s e).1.isStarting = s.isStarting ∧
    (stop s e).1.avatarId = s.avatarId ∧
    (stop s e).1.muteGraceTimer = s.muteGraceTimer ∧
    (stop s e).1.trackSubscribed = s.trackSubscribed ∧
    (stop s e).1.consecutiveFailures = s.consecutiveFailures ∧
    (stop s e).1.health = s.health ∧
    (stop s e).1.lastError = s.lastError := by
  unfold stop
  by_cases ha : s.avatar = false
  · simp [ha]
  · simp only [ha, if_false]
    cases hsd : s.sessionData with
    | none => simp
    | some sid =>
        cases he : e.stopErr with
        | none => simp
        | some msg =>
            by_cases hc : strIncludes (lowerStr (if msg = "" then "Failed to stop avatar" else msg)) "close" = true
            · simp [hc]
            · simp [hc]

/-- True for every recorded effect that is not a timed wait. -/
def evIsNonWait : Ev → Bool
  | .waitMs _ => false
  | _ => true

/-- The attemptStart chain of grab records only createStartAvatar calls,
never a timed wait. -/
theorem startChain_no_wait (ge : GrabEnv) :
    (startChain ge).2.all evIsNonWait = true := by
  unfold startChain
  cases h1 : ge.start1 with
  | okSid sid => rfl
  | failMsg msg =>
      by_cases hv : strIncludes msg "voice is not supported" = true
      · simp only [hv, if_true]
        cases hf : ge.fallbackVoice with
        | none => cases h2 : ge.start2 <;> rfl
        | some v =>
            cases hb : ge.startFb with
            | okSid sid => rfl
            | failMsg mb => cases h2 : ge.start2 <;> rfl
      · simp [hv, evIsNonWait]

/-- grab records no timed wait on any path: the backoff delay is never
consulted by a plain start. -/
theorem grab_no_wait (s : AppState) (ge : GrabEnv) :
    (grab s ge).trace.all evIsNonWait = true := by
  unfold grab
  cases hs : s.isStarting with
  | true => simp
  | false =>
      simp only [Bool.false_eq_true, if_false]
      cases hid : avatarIdSet s with
      | false => simp
      | true =>
          simp only [Bool.true_eq_false, if_false]
          cases hc : (s.avatar && s.sessionData.isSome) with
          | false =>
              cases ht : ge.tokenOk with
              | false => rfl
              | true =>
                  simp only [Bool.true_eq_false, if_false]
                  rcases hch : startChain ge with ⟨r, ev2⟩
                  have hsc := startChain_no_wait ge
                  rw [hch] at hsc
                  cases r <;> simp [List.all_append, hsc, evIsNonWait]
          | true =>
              cases ht : ge.tokenOk with
              | false => rfl
              | true =>
                  simp only [Bool.true_eq_false, if_false]
                  rcases hch : startChain ge with ⟨r, ev2⟩
                  have hsc := startChain_no_wait ge
                  rw [hch] at hsc
                  cases r <;> simp [List.all_append, hsc, evIsNonWait]

/-- A trace whose effects all pass the non-wait test contains no wait. -/
theorem no_wait_of_all (l : List Ev) (h : l.all evIsNonWait = true) (n : Nat) :
    Ev.waitMs n ∉ l := by
  intro hmem
  have hx := List.all_eq_true.mp h _ hmem
  simp [evIsNonWait] at hx

/-- When no start is in flight, an avatar id is selected, the token fetch
succeeds and the first createStartAvatar attempt fails with a
non-voice-related message, grab swallows the error, clears the session
state, logs the message, and releases the in-flight guard; the backoff
delay is left unchanged. -/
theorem grab_startFail_fields (s : AppState) (ge : GrabEnv) (m : String)
    (h0 : s.isStarting = false) (h1 : avatarIdSet s = true)
    (h2 : ge.tokenOk = true) (h3 : ge.start1 = StartRes.failMsg m)
    (h4 : strIncludes m "voice is not supported" = false) :
    (grab s ge).state.backoff = s.backoff ∧
    (grab s ge).state.isStarting = false ∧
    (grab s ge).state.avatarId = s.avatarId ∧
    (grab s ge).state.sessionData = none ∧
    (grab s ge).state.avatar = false ∧
    (grab s ge).state.stream = false ∧
    (grab s ge).state.debug =
      some (if m = "" then "Failed to start avatar session" else m) ∧
    (grab s ge).thrown = none := by
  have hsc : startChain ge = (StartRes.failMsg m, [Ev.createStartCall]) := by
    unfold startChain
    rw [h3]
    simp [h4]
  simp [grab, h0, h1, h2, hsc]

/-- When no start is in flight, an avatar id is selected, the token fetch
succeeds and the first createStartAvatar attempt succeeds, grab stores the
new session, rearms the heartbeat, resets the backoff delay to 1000 and
releases the in-flight guard. -/
theorem grab_okStart_fields (s : AppState) (ge : GrabEnv) (sid : String)
    (h0 : s.isStarting = false) (h1 : avatarIdSet s = true)
    (h2 : ge.tokenOk = true) (h3 : ge.start1 = StartRes.okSid sid) :
    (grab s ge).state.backoff = 1000 ∧
    (grab s ge).state.isStarting = false ∧
    (grab s ge).state.avatarId = s.avatarId ∧
    (grab s ge).state.sessionData = some sid ∧
    (grab s ge).state.heartbeatTimer = true ∧
    (grab s ge).thrown = none := by
  have hsc : startChain ge = (StartRes.okSid sid, [Ev.createStartCall]) := by
    unfold startChain
    rw [h3]
  simp [grab, h0, h1, h2, hsc]

/-- C1: the claim that the InFlightGuard is cleared when the start sequence
finishes on every failure path is contradicted by the code: when the token
fetch to /api/grab fails, grab throws after setting isStartingRef and
outside the try/finally that resets it, so the guard stays set forever; a
subsequent grab is then a permanent logged no-op and every reconnection
sequence is skipped.  This theorem evaluates the embedded grab at that
failing input and exhibits the stuck guard and the resulting lock-up. -/
theorem c1_single_flight_guard_stuck :
    (grab idle0 genvTokenFail).thrown =
      some "Failed to fetch: Internal Server Error" ∧
    (grab idle0 genvTokenFail).state.isStarting = true ∧
    (grab (grab idle0 genvTokenFail).state genvOkStart).state =
      { (grab idle0 genvTokenFail).state with
          debug := some "Already starting a session..." } ∧
    (safeRestart (grab idle0 genvTokenFail).state stopEnvOk genvOkStart).state =
      (grab idle0 genvTokenFail).state := by decide

/-- C9: calling stop when no Session exists (no avatar instance or no
session id) returns without raising and leaves the session fields, the
stream, the health, the failure counter, the backoff state and all timers
unchanged; no remote call is recorded. -/
theorem c9_idempotent_stop :
    ∀ (s : AppState) (e : StopEnv), s.avatar = false ∨ s.sessionData = none →
      (stop s e).1.sessionData = s.sessionData ∧
      (stop s e).1.stream = s.stream ∧
      (stop s e).1.health = s.health ∧
      (stop s e).1.consecutiveFailures = s.consecutiveFailures ∧
      (stop s e).1.backoff = s.backoff ∧
      (stop s e).1.heartbeatTimer = s.heartbeatTimer ∧
      (stop s e).1.muteGraceTimer = s.muteGraceTimer ∧
      (stop s e).1.trackSubscribed = s.trackSubscribed ∧
      (stop s e).1.mediaStreamActive = s.mediaStreamActive ∧
      (stop s e).1.avatar = s.avatar ∧
      (stop s e).1.lastError = s.lastError ∧
      (stop s e).1.lastHeartbeatAt = s.lastHeartbeatAt ∧
      (stop s e).2 = [] := by
  intro s e h
  unfold stop
  by_cases ha : s.avatar = false
  · simp [ha]
  · have hsd : s.sessionData = none := by
      rcases h with h | h
      · exact absurd h ha
      · exact h
    simp [ha, hsd]

/-- Witness for C9 at the idle state. -/
theorem c9_idempotent_stop_witness :
    (stop idle0 stopEnvOk).1.sessionData = idle0.sessionData ∧
    (stop idle0 stopEnvOk).1.stream = idle0.stream ∧
    (stop idle0 stopEnvOk).1.health = idle0.health ∧
    (stop idle0 stopEnvOk).1.consecutiveFailures = idle0.consecutiveFailures ∧
    (stop idle0 stopEnvOk).1.backoff = idle0.backoff ∧
    (stop idle0 stopEnvOk).1.heartbeatTimer = idle0.heartbeatTimer ∧
    (stop idle0 stopEnvOk).1.muteGraceTimer = idle0.muteGraceTimer ∧
    (stop idle0 stopEnvOk).1.trackSubscribed = idle0.trackSubscribed ∧
    (stop idle0 stopEnvOk).1.mediaStreamActive = idle0.mediaStreamActive ∧
    (stop idle0 stopEnvOk).1.avatar = idle0.avatar ∧
    (stop idle0 stopEnvOk).1.lastError = idle0.lastError ∧
    (stop idle0 stopEnvOk).1.lastHeartbeatAt = idle0.lastHeartbeatAt ∧
    (stop idle0 stopEnvOk).2 = [] :=
  c9_idempotent_stop idle0 stopEnvOk (Or.inl rfl)

/-- C5 counterexample: stopping an active session whose track monitor has a
pending mute grace timeout leaves that timeout pending and the track
subscriptions attached after stop returns, contradicting the claim that no
mute-grace timer or monitor subscription remains active. -/
theorem c5_teardown_cex :
    (stop sMute stopEnvOk).1.sessionData = none ∧
    (stop sMute stopEnvOk).1.muteGraceTimer = true ∧
    (stop sMute stopEnvOk).1.trackSubscribed = true := by decide

/-- C5 amended: stop never cancels mute-grace timers or detaches the track
subscriptions; only the heartbeat interval is cancelled, and that happens
synchronously before the remote stop call begins, as the recorded effect
order shows. -/
theorem c5_teardown_amended :
    ∀ (s : AppState) (e : StopEnv),
      (stop s e).1.muteGraceTimer = s.muteGraceTimer ∧
      (stop s e).1.trackSubscribed = s.trackSubscribed ∧
      (s.avatar = true → s.sessionData.isSome = true →
        (stop s e).1.heartbeatTimer = false ∧
        (stop s e).2 = [Ev.clearHeartbeatEv, Ev.remoteStopCall]) := by
  intro s e
  refine ⟨(stop_fields s e).2.2.2.1, (stop_fields s e).2.2.2.2.1, ?_⟩
  intro ha hsd
  rcases Option.isSome_iff_exists.mp hsd with ⟨sid, hsid⟩
  unfold stop
  simp only [ha, hsid]
  cases he : e.stopErr with
  | none => simp
  | some msg =>
      by_cases hc : strIncludes (lowerStr (if msg = "" then "Failed to stop avatar" else msg)) "close" = true
      · simp [hc]
      · simp [hc]

/-- Witness for C5 amended at a state with a pending mute grace timeout. -/
theorem c5_teardown_amended_witness :
    (stop sMute stopEnvOk).1.muteGraceTimer = sMute.muteGraceTimer ∧
    (stop sMute stopEnvOk).1.trackSubscribed = sMute.trackSubscribed ∧
    (stop sMute stopEnvOk).1.heartbeatTimer = false ∧
    (stop sMute stopEnvOk).2 = [Ev.clearHeartbeatEv, Ev.remoteStopCall] := by
  have h := c5_teardown_amended sMute stopEnvOk
  have h3 := h.2.2 (by decide) (by decide)
  exact ⟨h.1, h.2.1, h3.1, h3.2⟩

/-- C8 counterexample: a track ended event invokes safeRestart directly
without incrementing the FailureCounter or touching health, so monitor
failures do not feed the heartbeat threshold machinery. -/
theorem c8_monitor_cex :
    (trackStep monInit TrackEv.ended).restarts = 1 ∧
    (trackStep monInit TrackEv.ended).failures = 0 ∧
    ¬ (trackStep monInit TrackEv.ended).failures = monInit.failures + 1 ∧
    (trackStep monInit TrackEv.ended).health = monInit.health := by decide

/-- C8 amended: a track ended event triggers the reconnection sequence
immediately; a mute event arms a 2000 ms grace timeout whose expiry
triggers the reconnection sequence, while an unmute before expiry cancels
it so its firing does nothing; none of the handlers touches the failure
counter or the health atom. -/
theorem c8_monitor_amended :
    (∀ m : MonState, trackStep m TrackEv.ended =
      { m with restarts := m.restarts + 1 }) ∧
    ((trackStep monInit TrackEv.mute).pending = [(0, 2000)] ∧
     (trackStep (trackStep monInit TrackEv.mute) (TrackEv.fire 0)).restarts = 1 ∧
     (trackStep (trackStep monInit TrackEv.mute) (TrackEv.fire 0)).pending = [] ∧
     (trackStep (trackStep monInit TrackEv.mute) TrackEv.unmute).pending = [] ∧
     trackStep (trackStep (trackStep monInit TrackEv.mute) TrackEv.unmute)
         (TrackEv.fire 0) =
       trackStep (trackStep monInit TrackEv.mute) TrackEv.unmute ∧
     (trackStep (trackStep (trackStep monInit TrackEv.mute) TrackEv.unmute)
         (TrackEv.fire 0)).restarts = 0) ∧
    (∀ (m : MonState) (ev : TrackEv),
      (trackStep m ev).failures = m.failures ∧
      (trackStep m ev).health = m.health) := by
  refine ⟨fun m => rfl, by decide, ?_⟩
  intro m ev
  cases ev with
  | ended => exact ⟨rfl, rfl⟩
  | mute => exact ⟨rfl, rfl⟩
  | unmute => cases hl : m.lastArmed <;> simp [trackStep, hl]
  | fire t =>
      by_cases hp : (m.pending.any fun p => p.1 == t) = true
      · simp [trackStep, hp]
      · simp [trackStep, hp]

/-- C4 counterexample: the checkAlive catch handler performs no
authorization classification.  A single unauthorized keepalive failure
leaves health unchanged rather than offline, and an unauthorized failure
arriving as the fourth consecutive failure does trigger the reconnection
sequence, contradicting both halves of the authorization short-circuit
claim. -/
theorem c4_auth_cex :
    ¬ (checkAlive session0 envAuth).state.health = Health.offline ∧
    (checkAlive session0 envAuth).restartTriggered = false ∧
    (checkAlive { session0 with consecutiveFailures := 3 } envAuth).restartTriggered = true ∧
    (checkAlive { session0 with consecutiveFailures := 3 } envAuth).state.health =
      Health.offline := by decide

/-- C4 amended: an unauthorized or expired-credentials error from keepalive
is handled exactly like any other failure — the handler is independent of
the error message: it increments the failure counter, and triggers the
reconnection sequence precisely when the counter reaches four, with no
authorization short-circuit. -/
theorem c4_auth_amended (s : AppState) (e : TickEnv) (m1 m2 : String) :
    (checkAlive s { e with firstOk := false, secondOk := false, errMsg := m1 }).state.health =
      (checkAlive s { e with firstOk := false, secondOk := false, errMsg := m2 }).state.health ∧
    (checkAlive s { e with firstOk := false, secondOk := false, errMsg := m1 }).state.consecutiveFailures =
      (checkAlive s { e with firstOk := false, secondOk := false, errMsg := m2 }).state.consecutiveFailures ∧
    (checkAlive s { e with firstOk := false, secondOk := false, errMsg := m1 }).restartTriggered =
      (checkAlive s { e with firstOk := false, secondOk := false, errMsg := m2 }).restartTriggered ∧
    (checkAlive s { e with firstOk := false, secondOk := false, errMsg := m1 }).restartTriggered =
      decide (4 ≤ s.consecutiveFailures + 1) ∧
    (checkAlive s { e with firstOk := false, secondOk := false, errMsg := m1 }).state.consecutiveFailures =
      s.consecutiveFailures + 1 := by
  cases hsd : s.sessionData with
  | none =>
      have h1 := checkAlive_failure_char s
        { e with firstOk := false, secondOk := false, errMsg := m1 }
        "no sessionId" [] (by rw [hsd]; rfl)
      have h2 := checkAlive_failure_char s
        { e with firstOk := false, secondOk := false, errMsg := m2 }
        "no sessionId" [] (by rw [hsd]; rfl)
      rw [h1, h2]
      exact ⟨rfl, rfl, rfl, rfl, rfl⟩
  | some sid =>
      have h1 := checkAlive_failure_char s
        { e with firstOk := false, secondOk := false, errMsg := m1 }
        m1 [Ev.keepaliveCall, Ev.waitMs 300, Ev.keepaliveCall] (by simp [checkAliveTick, hsd])
      have h2 := checkAlive_failure_char s
        { e with firstOk := false, secondOk := false, errMsg := m2 }
        m2 [Ev.keepaliveCall, Ev.waitMs 300, Ev.keepaliveCall] (by simp [checkAliveTick, hsd])
      rw [h1, h2]
      exact ⟨rfl, rfl, rfl, rfl, rfl⟩

/-- C2: every delivered heartbeat failure increments the FailureCounter and
every success resets it to zero with health ok; from a freshly started
session, two consecutive failures yield health degraded with no reconnect,
four consecutive failures yield health offline with exactly one reconnect
trigger, and a success after failures resets the counter and health. -/
theorem c2_threshold_transitions :
    (∀ (s : AppState) (e : TickEnv) (m : String) (evs : List Ev),
        checkAliveTick s.sessionData e = (TickResult.failure m, evs) →
          (checkAlive s e).state.consecutiveFailures = s.consecutiveFailures + 1) ∧
    (∀ (s : AppState) (e : TickEnv) (evs : List Ev),
        checkAliveTick s.sessionData e = (TickResult.success, evs) →
          (checkAlive s e).state.consecutiveFailures = 0 ∧
          (checkAlive s e).state.health = Health.ok) ∧
    ((runHeartbeats session0 [envFail, envFail]).1.health = Health.degraded ∧
     (runHeartbeats session0 [envFail, envFail]).1.consecutiveFailures = 2 ∧
     (runHeartbeats session0 [envFail, envFail]).2 = 0) ∧
    ((runHeartbeats session0 [envFail, envFail, envFail, envFail]).1.health =
        Health.offline ∧
     (runHeartbeats session0 [envFail, envFail, envFail, envFail]).2 = 1) ∧
    ((runHeartbeats session0 [envFail, envFail, envOkTick]).1.consecutiveFailures = 0 ∧
     (runHeartbeats session0 [envFail, envFail, envOkTick]).1.health = Health.ok) := by
  refine ⟨?_, ?_, by decide, by decide, by decide⟩
  · intro s e m evs h
    rw [checkAlive_failure_char s e m evs h]
  · intro s e evs h
    rw [checkAlive_success_char s e evs h]
    exact ⟨rfl, rfl⟩

/-- Witness for C2 at the active session state. -/
theorem c2_threshold_transitions_witness :
    (checkAlive session0 envFail).state.consecutiveFailures =
      session0.consecutiveFailures + 1 ∧
    (checkAlive session0 envOkTick).state.consecutiveFailures = 0 ∧
    (checkAlive session0 envOkTick).state.health = Health.ok := by
  have h1 := c2_threshold_transitions.1 session0 envFail "network error"
    [Ev.keepaliveCall, Ev.waitMs 300, Ev.keepaliveCall] (by decide)
  have h2 := c2_threshold_transitions.2.1 session0 envOkTick
    [Ev.keepaliveCall] (by decide)
  exact ⟨h1, h2.1, h2.2⟩

/-- The effect trace of one checkAlive tick, by cases on the session id and
the first keepalive outcome: no call without a session id, one call when
the first succeeds, and a 300 ms wait between exactly two calls
otherwise. -/
theorem checkAliveTick_trace (sid : Option String) (e : TickEnv) :
    (checkAliveTick sid e).2 =
      if sid.isNone then []
      else if e.firstOk then [Ev.keepaliveCall]
      else [Ev.keepaliveCall, Ev.waitMs 300, Ev.keepaliveCall] := by
  cases sid <;> rcases e with ⟨ma, f1, f2, msg, now⟩ <;>
    cases f1 <;> cases ma <;> cases f2 <;> rfl

/-- C6: within one heartbeat tick, a failed first keepalive call is retried
exactly once after a 300 ms wait; the tick succeeds precisely when a
session id exists, some keepalive call succeeded, and the media transport
still reports active tracks — an inactive media stream makes the tick a
failure even when keepalive succeeded. -/
theorem c6_heartbeat_tick_semantics (sid : Option String) (e : TickEnv) :
    ((checkAliveTick sid e).1 = TickResult.success ↔
      (sid.isSome = true ∧ (e.firstOk = true ∨ e.secondOk = true) ∧
        e.mediaActive = true)) ∧
    ((checkAliveTick sid e).2.count (Ev.waitMs 300) =
      if sid.isSome && !e.firstOk then 1 else 0) ∧
    ((checkAliveTick sid e).2.count Ev.keepaliveCall =
      if sid.isNone then 0 else if e.firstOk then 1 else 2) := by
  refine ⟨?_, ?_, ?_⟩
  · cases sid with
    | none => simp [checkAliveTick]
    | some s0 =>
        rcases e with ⟨ma, f1, f2, msg, now⟩
        cases ma <;> cases f1 <;> cases f2 <;> simp [checkAliveTick]
  · rw [checkAliveTick_trace]
    cases sid with
    | none => simp
    | some s0 => cases hf : e.firstOk <;> simp [List.count_cons]
  · rw [checkAliveTick_trace]
    cases sid with
    | none => simp
    | some s0 => cases hf : e.firstOk <;> simp [List.count_cons]

/-- A reconnection sequence waits exactly the backoff delay that was
current when it began. -/
theorem safeRestart_waits_backoff (s : AppState) (se : StopEnv) (ge : GrabEnv)
    (h : s.isStarting = false) :
    Ev.waitMs s.backoff ∈ (safeRestart s se ge).trace := by
  unfold safeRestart
  rw [if_neg (by simp [h] : ¬ (s.isStarting = true))]
  have hb : (postStopState s se).backoff = s.backoff :=
    (stop_fields (reconnState s) se).1
  rw [hb]
  exact List.mem_cons_of_mem _ (List.mem_append_right _ (List.mem_cons_self _ _))

/-- The state a reconnection sequence ends in is the state of the grab it
performs, started from the post-stop state with the backoff delay already
doubled and capped. -/
theorem safeRestart_state_eq (s : AppState) (se : StopEnv) (ge : GrabEnv)
    (h : s.isStarting = false) :
    (safeRestart s se ge).state = (grab (reconnGrabState s se) ge).state := by
  unfold safeRestart
  rw [if_neg (by simp [h] : ¬ (s.isStarting = true))]

/-- The state safeRestart hands to grab keeps the in-flight guard released
and the avatar id, and carries the doubled and capped backoff delay. -/
theorem reconnGrabState_fields (s : AppState) (se : StopEnv)
    (h : s.isStarting = false) :
    (reconnGrabState s se).isStarting = false ∧
    (reconnGrabState s se).avatarId = s.avatarId ∧
    (reconnGrabState s se).backoff = min (s.backoff * 2) 10000 := by
  have hf := stop_fields (reconnState s) se
  refine ⟨?_, ?_, ?_⟩
  · show (postStopState s se).isStarting = false
    show (stop (reconnState s) se).1.isStarting = false
    rw [hf.2.1]
    exact h
  · show (postStopState s se).avatarId = s.avatarId
    show (stop (reconnState s) se).1.avatarId = s.avatarId
    rw [hf.2.2.1]
    rfl
  · show min ((postStopState s se).backoff * 2) 10000 = min (s.backoff * 2) 10000
    show min ((stop (reconnState s) se).1.backoff * 2) 10000 = min (s.backoff * 2) 10000
    rw [hf.1]
    rfl

/-- C3: every reconnection sequence waits the current backoff delay; after
a reconnection whose restart attempt fails, the stored delay is
min(previous times 2, 10000), so the next reconnection waits exactly that;
a reconnection whose restart succeeds resets the delay to the 1000 ms
floor; and a plain grab never waits, so the backoff delay is never
consulted for a user-triggered start. -/
theorem c3_backoff_law :
    (∀ (s : AppState) (se : StopEnv) (ge : GrabEnv), s.isStarting = false →
        Ev.waitMs s.backoff ∈ (safeRestart s se ge).trace) ∧
    (∀ (s : AppState) (se : StopEnv),
        s.isStarting = false → s.avatarId = some "avatar-1" →
          (safeRestart s se genvStartFail).state.backoff =
            min (s.backoff * 2) 10000 ∧
          (safeRestart s se genvStartFail).state.isStarting = false ∧
          Ev.waitMs (min (s.backoff * 2) 10000) ∈
            (safeRestart (safeRestart s se genvStartFail).state se
              genvStartFail).trace) ∧
    (∀ (s : AppState) (se : StopEnv),
        s.isStarting = false → s.avatarId = some "avatar-1" →
          (safeRestart s se genvOkStart).state.backoff = 1000) ∧
    (∀ (s : AppState) (ge : GrabEnv) (n : Nat),
        Ev.waitMs n ∉ (grab s ge).trace) := by
  refine ⟨fun s se ge h => safeRestart_waits_backoff s se ge h, ?_, ?_,
    fun s ge n => no_wait_of_all _ (grab_no_wait s ge) n⟩
  · intro s se h hid
    obtain ⟨hS3i, hS3aid, hS3b⟩ := reconnGrabState_fields s se h
    have hS3a : avatarIdSet (reconnGrabState s se) = true := by
      unfold avatarIdSet
      rw [hS3aid, hid]
      rfl
    have hg := grab_startFail_fields _ genvStartFail "boom" hS3i hS3a rfl rfl
      (by decide)
    have hru := safeRestart_state_eq s se genvStartFail h
    have hb1 : (safeRestart s se genvStartFail).state.backoff =
        min (s.backoff * 2) 10000 := by
      rw [hru, hg.1, hS3b]
    have hi1 : (safeRestart s se genvStartFail).state.isStarting = false := by
      rw [hru]; exact hg.2.1
    refine ⟨hb1, hi1, ?_⟩
    rw [← hb1]
    exact safeRestart_waits_backoff _ se genvStartFail hi1
  · intro s se h hid
    obtain ⟨hS3i, hS3aid, hS3b⟩ := reconnGrabState_fields s se h
    have hS3a : avatarIdSet (reconnGrabState s se) = true := by
      unfold avatarIdSet
      rw [hS3aid, hid]
      rfl
    have hg := grab_okStart_fields _ genvOkStart "sess-2" hS3i hS3a rfl rfl
    have hru := safeRestart_state_eq s se genvOkStart h
    rw [hru]
    exact hg.1

/-- Witness for C3 at the active session state. -/
theorem c3_backoff_law_witness :
    Ev.waitMs session0.backoff ∈ (safeRestart session0 stopEnvOk genvOkStart).trace ∧
    (safeRestart session0 stopEnvOk genvStartFail).state.backoff =
      min (session0.backoff * 2) 10000 ∧
    (safeRestart session0 stopEnvOk genvOkStart).state.backoff = 1000 := by
  refine ⟨c3_backoff_law.1 session0 stopEnvOk genvOkStart rfl, ?_, ?_⟩
  · exact (c3_backoff_law.2.1 session0 stopEnvOk rfl rfl).1
  · exact c3_backoff_law.2.2.1 session0 stopEnvOk rfl rfl

/-- C7 counterexample: a user-initiated startSession that fails with a
message containing "network" schedules an automatic retry of startSession
after 5000 ms, contradicting the claim that a failed user-initiated start
is never automatically retried. -/
theorem c7_retry_cex :
    startSessionCatch "network error" =
      ⟨true, some "network error", some 5000⟩ ∧
    ¬ (startSessionCatch "network error").retryDelayMs = none := by decide

/-- C7 amended: in the heartbeat variant, grab on a failed start clears the
session state, surfaces the message, releases the guard and never arms a
retry (its trace records no wait); in the worker variant, the startSession
catch block always clears the session and records the message, but arms an
automatic retry exactly when the effective message mentions invalid session
state (2000 ms) or network or timeout (5000 ms). -/
theorem c7_user_start_retry :
    (∀ msg : String,
      (startSessionCatch msg).cleared = true ∧
      (startSessionCatch msg).lastError =
        some (if msg = "" then "Failed to start avatar session" else msg) ∧
      (startSessionCatch msg).retryDelayMs.isSome =
        (strIncludes (if msg = "" then "Failed to start avatar session" else msg)
            "invalid session state" ||
          (strIncludes (if msg = "" then "Failed to start avatar session" else msg)
              "network" ||
            strIncludes (if msg = "" then "Failed to start avatar session" else msg)
              "timeout"))) ∧
    ((grab session0 genvStartFail).state.sessionData = none ∧
     (grab session0 genvStartFail).state.avatar = false ∧
     (grab session0 genvStartFail).state.stream = false ∧
     (grab session0 genvStartFail).state.isStarting = false ∧
     (grab session0 genvStartFail).state.debug = some "boom" ∧
     (grab session0 genvStartFail).thrown = none) ∧
    (∀ n : Nat, Ev.waitMs n ∉ (grab session0 genvStartFail).trace) := by
  refine ⟨?_, by decide,
    fun n => no_wait_of_all _ (grab_no_wait session0 genvStartFail) n⟩
  intro msg
  unfold startSessionCatch
  by_cases h1 : strIncludes (if msg = "" then "Failed to start avatar session" else msg)
      "invalid session state" = true
  · simp [h1]
  · by_cases h2 : (strIncludes (if msg = "" then "Failed to start avatar session" else msg)
          "network" ||
        strIncludes (if msg = "" then "Failed to start avatar session" else msg)
          "timeout") = true
    · simp [h1, h2]
    · simp [h1, h2]

/-- C10 counterexample: a request whose body carries the session identifier
only under the key sessionId — so that session_id is absent — is not
rejected with 400: the route falls back to sessionId, calls the upstream
gateway and returns its result, contradicting the claim that an absent
session_id yields 400 with no upstream call. -/
theorem c10_route_cex :
    keepalivePOST (some "key") (some [("sessionId", JVal.jstr "abc")]) envUpOk =
      ⟨200, none, true⟩ ∧
    ¬ (keepalivePOST (some "key") (some [("sessionId", JVal.jstr "abc")])
        envUpOk).status = 400 ∧
    (keepalivePOST (some "key") (some [("sessionId", JVal.jstr "abc")])
        envUpOk).upstreamCalled = true := by decide

/-- C10 amended: with the session identifier read as body.session_id
falling back to body.sessionId under JavaScript truthiness, the route
responds 500 when the api token is unset, 400 on an unparsable body, 400
when the extracted identifier is not a truthy string — all without calling
the gateway; a non-ok upstream response is forwarded with the upstream
status and its message or error field (falling back to the status text);
and every path returns a response that is either a 200 or carries a JSON
error field (the handler never throws). -/
theorem c10_route_discipline :
    (∀ (body : Option (List (String × JVal))) (env : RouteEnv),
        keepalivePOST none body env =
          ⟨500, some "API token is not defined", false⟩) ∧
    (∀ (t : String) (env : RouteEnv), (t = "") = False →
        keepalivePOST (some t) none env =
          ⟨400, some "Invalid JSON body", false⟩) ∧
    (∀ (t : String) (fields : List (String × JVal)) (env : RouteEnv),
        (t = "") = False →
        (jsTruthy (jsOrV (jLookup fields "session_id") (jLookup fields "sessionId")) &&
          isJStr (jsOrV (jLookup fields "session_id") (jLookup fields "sessionId")))
          = false →
        keepalivePOST (some t) (some fields) env =
          ⟨400, some "session_id is required", false⟩) ∧
    (∀ (t : String) (fields : List (String × JVal)) (env : RouteEnv),
        (t = "") = False →
        (jsTruthy (jsOrV (jLookup fields "session_id") (jLookup fields "sessionId")) &&
          isJStr (jsOrV (jLookup fields "session_id") (jLookup fields "sessionId")))
          = true →
        env.fetchErr = none → env.resp.ok = false →
        (keepalivePOST (some t) (some fields) env).status = env.resp.status ∧
        (keepalivePOST (some t) (some fields) env).errorOut =
          some (jsOrS (jsOrS (jsOrS env.resp.message env.resp.errMsgField)
            env.resp.statusText) "keep_alive failed") ∧
        (keepalivePOST (some t) (some fields) env).upstreamCalled = true) ∧
    (∀ (tok : Option String) (body : Option (List (String × JVal)))
        (env : RouteEnv),
        (keepalivePOST tok body env).status = 200 ∨
        ((keepalivePOST tok body env).errorOut).isSome = true) := by
  refine ⟨?_, ?_, ?_, ?_, ?_⟩
  · intro body env
    rfl
  · intro t env h
    have ht : tokenSet (some t) = true := by
      simp [tokenSet]
      intro hc
      rw [hc] at h
      simp at h
    unfold keepalivePOST
    rw [ht]
    rfl
  · intro t fields env h hsid
    have ht : tokenSet (some t) = true := by
      simp [tokenSet]
      intro hc
      rw [hc] at h
      simp at h
    have hcond : (!jsTruthy (jsOrV (jLookup fields "session_id")
        (jLookup fields "sessionId")) ||
        !isJStr (jsOrV (jLookup fields "session_id")
          (jLookup fields "sessionId"))) = true := by
      rw [← Bool.not_and, hsid]
      rfl
    unfold keepalivePOST
    rw [ht]
    simp only [Bool.true_eq_false, if_false, hcond, if_true]
  · intro t fields env h hsid hfe hok
    have ht : tokenSet (some t) = true := by
      simp [tokenSet]
      intro hc
      rw [hc] at h
      simp at h
    have hcond : (!jsTruthy (jsOrV (jLookup fields "session_id")
        (jLookup fields "sessionId")) ||
        !isJStr (jsOrV (jLookup fields "session_id")
          (jLookup fields "sessionId"))) = false := by
      rw [← Bool.not_and, hsid]
      rfl
    unfold keepalivePOST
    rw [ht]
    simp only [Bool.true_eq_false, if_false, hcond, Bool.false_eq_true, hfe, hok]
    exact ⟨trivial, trivial, trivial⟩
  · intro tok body env
    unfold keepalivePOST
    cases htk : tokenSet tok with
    | false => simp
    | true =>
        simp only [Bool.true_eq_false, if_false]
        cases body with
        | none => simp
        | some fields =>
            cases hcond : (!jsTruthy (jsOrV (jLookup fields "session_id")
                (jLookup fields "sessionId")) ||
                !isJStr (jsOrV (jLookup fields "session_id")
                  (jLookup fields "sessionId"))) with
            | true => simp [hcond]
            | false =>
                simp only [hcond, Bool.false_eq_true, if_false]
                cases hfe : env.fetchErr with
                | some m => simp
                | none =>
                    cases hok : env.resp.ok with
                    | true => simp
                    | false => simp

/-- Witness for C10 at concrete requests. -/
theorem c10_route_discipline_witness :
    keepalivePOST (some "key") none envUpOk =
      ⟨400, some "Invalid JSON body", false⟩ ∧
    keepalivePOST (some "key") (some []) envUpOk =
      ⟨400, some "session_id is required", false⟩ ∧
    (keepalivePOST (some "key") (some [("session_id", JVal.jstr "s")])
        envUpBad).status = 401 ∧
    (keepalivePOST (some "key") (some [("session_id", JVal.jstr "s")])
        envUpBad).errorOut = some "unauthorized" := by
  have h1 := c10_route_discipline.2.1 "key" envUpOk (by simp)
  have h2 := c10_route_discipline.2.2.1 "key" [] envUpOk (by simp) (by decide)
  have h3 := c10_route_discipline.2.2.2.1 "key" [("session_id", JVal.jstr "s")]
    envUpBad (by simp) (by decide) rfl rfl
  exact ⟨h1, h2, h3.1, h3.2.1⟩

end StreamAvatar
